import Mathlib

/-!
Shallow embedding of PD-StartGate (src/PD-StartGate.ino), a Pinewood Derby
start-gate controller for the Arduino Uno.  The program is one cooperative
polling loop: a four-state switch statement driving a solenoid and an
indicator LED from two active-low switches, followed by a busy-wait dwell
and a final forced solenoid-off write.

Modelling conventions:
- Digital levels are Bool: HIGH = true, LOW = false.
- Both switches use INPUT_PULLUP, so a pressed (asserted) switch reads LOW
  (false); an idle switch reads HIGH (true).
- The state variable is a UINT8 in the source; no arithmetic is performed
  on it, only assignments of the constants 1..4, so it is modelled as Nat.
- One pass of the switch statement is the pure function `step`; it returns
  the next state, the ordered list of pin events (reads and writes) the
  branch performs, and the dwell duration it selects.  Reads follow the
  short-circuit order of the C conditions.
- The busy-wait dwell is `dwellWait`; its clock trace is the list of
  whole-millisecond tick counts observed on each pass of the outer
  while loop (in the source, the wrap-around difference of two 16-bit
  millis samples).  The scope-pin heartbeat toggle inside the wait touches
  only pin 8 and is abstracted away.
- A full loop() iteration is `loopIter`: the switch events, then a dwell
  marker, then the final forced solenoid-off write, in source order.
-/

-- Pin assignments (src/PD-StartGate.ino, Port Pin Defines)

def SCOPE_PIN : Nat := 8

def SW_OPEN : Nat := 10

def SW_DISABLE : Nat := 11

def SOLENOID_EN : Nat := 12

def LED_DISABLE : Nat := 13

-- Timing constants

def DEBOUNCE_MS : Nat := 20

def SOLENOID_TIME_ON_MS : Nat := 500

def SOLENOID_TIME_OFF_MS : Nat := 5000

-- State encoding (the source stores these in a UINT8)

def S_WAIT_FOR_ENABLE : Nat := 1

def S_WAIT_FOR_OPEN : Nat := 2

def S_OPEN : Nat := 3

def S_CLOSE : Nat := 4

/-- The two raw digital input levels sampled during one loop iteration.
With the pull-ups, true (HIGH) means the switch is not pressed. -/
structure Inputs where
  swDisable : Bool
  swOpen : Bool
  deriving DecidableEq, Repr

/-- A switch is asserted (pressed) when its raw level reads LOW. -/
def disableAsserted (i : Inputs) : Bool := !i.swDisable

/-- The open button is asserted (pressed) when its raw level reads LOW. -/
def openAsserted (i : Inputs) : Bool := !i.swOpen

/-- Observable pin events of the loop body, in program order. -/
inductive Ev where
  | readPin : Nat → Bool → Ev
  | writePin : Nat → Bool → Ev
  | dwell : Nat → Ev
  deriving DecidableEq, Repr

/-- Result of one pass through the switch statement in loop(). -/
structure StepOut where
  state : Nat
  events : List Ev
  delayMs : Nat
  deriving DecidableEq, Repr

/-- One pass of the state-machine switch in loop().  Each case mirrors the
source branch: the conditional state assignment (with the short-circuit
read order of the C conditions), then the digitalWrite calls in order,
then the delay_ms assignment.  The default case resets to
S_WAIT_FOR_ENABLE with the solenoid off and a short dwell. -/
def step (s : Nat) (i : Inputs) : StepOut :=
  if s = S_WAIT_FOR_ENABLE then
    -- if ((digitalRead(SW_DISABLE)) && (digitalRead(SW_OPEN))) state = S_WAIT_FOR_OPEN
    { state := if i.swDisable && i.swOpen then S_WAIT_FOR_OPEN else s
      events :=
        (if i.swDisable then
          [Ev.readPin SW_DISABLE true, Ev.readPin SW_OPEN i.swOpen]
        else
          [Ev.readPin SW_DISABLE false]) ++
        [Ev.writePin SOLENOID_EN false, Ev.writePin LED_DISABLE true]
      delayMs := DEBOUNCE_MS }
  else if s = S_WAIT_FOR_OPEN then
    -- if (!digitalRead(SW_DISABLE)) state = S_WAIT_FOR_ENABLE
    -- else if (!digitalRead(SW_OPEN)) state = S_OPEN
    { state :=
        if !i.swDisable then S_WAIT_FOR_ENABLE
        else if !i.swOpen then S_OPEN
        else s
      events :=
        (if !i.swDisable then
          [Ev.readPin SW_DISABLE false]
        else
          [Ev.readPin SW_DISABLE true, Ev.readPin SW_OPEN i.swOpen]) ++
        [Ev.writePin SOLENOID_EN false, Ev.writePin LED_DISABLE false]
      delayMs := DEBOUNCE_MS }
  else if s = S_OPEN then
    { state := S_CLOSE
      events := [Ev.writePin LED_DISABLE true, Ev.writePin SOLENOID_EN true]
      delayMs := SOLENOID_TIME_ON_MS }
  else if s = S_CLOSE then
    { state := S_WAIT_FOR_ENABLE
      events := [Ev.writePin SOLENOID_EN false]
      delayMs := SOLENOID_TIME_OFF_MS }
  else
    { state := S_WAIT_FOR_ENABLE
      events := [Ev.writePin SOLENOID_EN false]
      delayMs := DEBOUNCE_MS }

/-- The values written to a given pin by a trace, in order. -/
def writesTo (pin : Nat) (t : List Ev) : List Bool :=
  t.filterMap fun e =>
    match e with
    | Ev.writePin q v => if q = pin then some v else none
    | _ => none

/-- Whether an event is an input sample (a digitalRead). -/
def isRead (e : Ev) : Bool :=
  match e with
  | Ev.readPin _ _ => true
  | _ => false

/-- Whether an event is a dwell marker. -/
def isDwell (e : Ev) : Bool :=
  match e with
  | Ev.dwell _ => true
  | _ => false

/-- The pin targeted by a write event, if any. -/
def writeTarget (e : Ev) : Option Nat :=
  match e with
  | Ev.writePin p _ => some p
  | _ => none

/-- One full iteration of loop(): the switch pass, then the dwell, then
the final forced digitalWrite(SOLENOID_EN, LOW), in source order. -/
def loopIter (s : Nat) (i : Inputs) : Nat × List Ev :=
  let so := step s i
  (so.state, so.events ++ [Ev.dwell so.delayMs, Ev.writePin SOLENOID_EN false])

/-- Repeated loop() iterations over a list of sampled inputs, with the
per-iteration traces concatenated in order. -/
def run (s : Nat) (l : List Inputs) : Nat × List Ev :=
  match l with
  | [] => (s, [])
  | i :: rest =>
      let first := loopIter s i
      let later := run first.1 rest
      (later.1, first.2 ++ later.2)

/-- The state after folding the step function over a list of inputs. -/
def stateAfter (s : Nat) (l : List Inputs) : Nat :=
  l.foldl (fun st i => (step st i).state) s

/-- Replaying a trace of write events onto a pin-level assignment. -/
def applyEv (p : Nat → Bool) (e : Ev) : Nat → Bool :=
  match e with
  | Ev.writePin pin v => fun q => if q = pin then v else p q
  | _ => p

/-- Replaying a whole trace onto a pin-level assignment. -/
def applyTrace (t : List Ev) (p : Nat → Bool) : Nat → Bool :=
  t.foldl applyEv p

/-- One observed millisecond tick inside the dwell inner loop:
if (delay_ms) delay_ms--, with a count of decrements performed. -/
def tick (s : Nat × Nat) : Nat × Nat :=
  if s.1 ≠ 0 then (s.1 - 1, s.2 + 1) else s

/-- The dwell inner while loop: process n observed ticks. -/
def runTicks (n : Nat) (s : Nat × Nat) : Nat × Nat :=
  match n with
  | 0 => s
  | m + 1 => runTicks m (tick s)

/-- The dwell outer while loop.  Each pass of while (delay_ms) observes a
burst of whole-millisecond ticks (the wrap-around millis difference) and
runs the inner loop on it.  Returns none when the clock trace is exhausted
before the dwell completes; otherwise the final (remaining, decrements)
pair. -/
def dwellWait (bursts : List Nat) (s : Nat × Nat) : Option (Nat × Nat) :=
  match bursts with
  | [] => if s.1 = 0 then some s else none
  | n :: rest =>
      if s.1 = 0 then some s else dwellWait rest (runTicks n s)

theorem step_solenoid_writes (s : Nat) (i : Inputs) :
    writesTo SOLENOID_EN (step s i).events = [decide (s = S_OPEN)] := by
  obtain ⟨d, o⟩ := i
  by_cases h1 : s = S_WAIT_FOR_ENABLE
  · subst h1; cases d <;> cases o <;> decide
  · by_cases h2 : s = S_WAIT_FOR_OPEN
    · subst h2; cases d <;> cases o <;> decide
    · by_cases h3 : s = S_OPEN
      · subst h3; cases d <;> cases o <;> decide
      · by_cases h4 : s = S_CLOSE
        · subst h4; cases d <;> cases o <;> decide
        · simp only [step, h1, h2, h3, h4, if_false, writesTo]
          simp [h3, SOLENOID_EN]

theorem step_no_dwell (s : Nat) (i : Inputs) :
    ∀ e ∈ (step s i).events, isDwell e = false := by
  obtain ⟨d, o⟩ := i
  by_cases h1 : s = S_WAIT_FOR_ENABLE
  · subst h1; cases d <;> cases o <;> decide
  · by_cases h2 : s = S_WAIT_FOR_OPEN
    · subst h2; cases d <;> cases o <;> decide
    · by_cases h3 : s = S_OPEN
      · subst h3; cases d <;> cases o <;> decide
      · by_cases h4 : s = S_CLOSE
        · subst h4; cases d <;> cases o <;> decide
        · simp only [step, h1, h2, h3, h4, if_false]
          decide

theorem step_state_cases (s : Nat) (i : Inputs) :
    (step s i).state = S_WAIT_FOR_ENABLE ∨ (step s i).state = S_WAIT_FOR_OPEN ∨
      (step s i).state = S_OPEN ∨ (step s i).state = S_CLOSE := by
  obtain ⟨d, o⟩ := i
  by_cases h1 : s = S_WAIT_FOR_ENABLE
  · subst h1; cases d <;> cases o <;> decide
  · by_cases h2 : s = S_WAIT_FOR_OPEN
    · subst h2; cases d <;> cases o <;> decide
    · by_cases h3 : s = S_OPEN
      · subst h3; cases d <;> cases o <;> decide
      · by_cases h4 : s = S_CLOSE
        · subst h4; cases d <;> cases o <;> decide
        · simp only [step, h1, h2, h3, h4, if_false]
          decide

theorem writesTo_append (pin : Nat) (a b : List Ev) :
    writesTo pin (a ++ b) = writesTo pin a ++ writesTo pin b := by
  simp [writesTo, List.filterMap_append]

/-- Claim C1: for every state value (the four machine states and every
unreachable default value) and every input combination, the switch pass
performs exactly one solenoid write, and it is HIGH iff the state is
S_OPEN. -/
theorem c1_actuator_on_iff_open (s : Nat) (i : Inputs) :
    writesTo SOLENOID_EN (step s i).events = [decide (s = S_OPEN)] :=
  step_solenoid_writes s i

/-- Claim C2: from S_WAIT_FOR_OPEN with the disable switch and the open
switch both asserted (both read LOW), the step goes to S_WAIT_FOR_ENABLE
and never to S_OPEN: the disable check has priority. -/
theorem c2_disable_priority (i : Inputs)
    (hd : disableAsserted i = true) (ho : openAsserted i = true) :
    (step S_WAIT_FOR_OPEN i).state = S_WAIT_FOR_ENABLE ∧
      (step S_WAIT_FOR_OPEN i).state ≠ S_OPEN := by
  obtain ⟨d, o⟩ := i
  revert hd ho
  cases d <;> cases o <;> decide

/-- Witness for c2_disable_priority at the concrete input where both
switches read LOW. -/
theorem c2_disable_priority_witness :
    (step S_WAIT_FOR_OPEN ⟨false, false⟩).state = S_WAIT_FOR_ENABLE ∧
      (step S_WAIT_FOR_OPEN ⟨false, false⟩).state ≠ S_OPEN :=
  c2_disable_priority ⟨false, false⟩ (by decide) (by decide)

/-- Claim C3: from S_WAIT_FOR_ENABLE the step advances to S_WAIT_FOR_OPEN
iff the disable switch is not asserted and the open switch is not
asserted; in particular with disable released and the open button still
held the step stays in S_WAIT_FOR_ENABLE. -/
theorem c3_rearm_requires_both_clear (i : Inputs) :
    ((step S_WAIT_FOR_ENABLE i).state = S_WAIT_FOR_OPEN ↔
      (disableAsserted i = false ∧ openAsserted i = false)) ∧
      (step S_WAIT_FOR_ENABLE ⟨true, false⟩).state = S_WAIT_FOR_ENABLE := by
  obtain ⟨d, o⟩ := i
  cases d <;> cases o <;> decide

/-- Claim C5: any state value outside the four defined states takes the
default branch: reset to S_WAIT_FOR_ENABLE, a single solenoid-off write,
and the short debounce dwell.  The step is a total function, so no fault
is raised. -/
theorem c5_default_failsafe (s : Nat) (i : Inputs)
    (h : s ≠ S_WAIT_FOR_ENABLE ∧ s ≠ S_WAIT_FOR_OPEN ∧ s ≠ S_OPEN ∧ s ≠ S_CLOSE) :
    (step s i).state = S_WAIT_FOR_ENABLE ∧
      (step s i).events = [Ev.writePin SOLENOID_EN false] ∧
      (step s i).delayMs = DEBOUNCE_MS := by
  obtain ⟨h1, h2, h3, h4⟩ := h
  simp [step, h1, h2, h3, h4]

/-- Witness for c5_default_failsafe at the unreachable state value 0. -/
theorem c5_default_failsafe_witness :
    (step 0 ⟨true, true⟩).state = S_WAIT_FOR_ENABLE ∧
      (step 0 ⟨true, true⟩).events = [Ev.writePin SOLENOID_EN false] ∧
      (step 0 ⟨true, true⟩).delayMs = DEBOUNCE_MS :=
  c5_default_failsafe 0 ⟨true, true⟩ (by decide)

/-- Claim C7: the process-lifetime timing constants are 20, 500 and 5000
milliseconds, and in exact rational arithmetic the duty-cycle safety
inequality holds: on-time over total cycle time is at most 10 percent,
equivalently off-time over total cycle time is at least 90 percent. -/
theorem c7_duty_cycle_constants :
    DEBOUNCE_MS = 20 ∧ SOLENOID_TIME_ON_MS = 500 ∧ SOLENOID_TIME_OFF_MS = 5000 ∧
      ((SOLENOID_TIME_ON_MS : ℚ) /
          ((SOLENOID_TIME_ON_MS : ℚ) + (SOLENOID_TIME_OFF_MS : ℚ)) ≤ 10 / 100) ∧
      ((SOLENOID_TIME_OFF_MS : ℚ) /
          ((SOLENOID_TIME_OFF_MS : ℚ) + (SOLENOID_TIME_ON_MS : ℚ)) ≥ 90 / 100) := by
  norm_num [DEBOUNCE_MS, SOLENOID_TIME_ON_MS, SOLENOID_TIME_OFF_MS]

-- Helper lemmas for the dwell accounting (claim C6)

theorem runTicks_eq (n : Nat) : ∀ d c, runTicks n (d, c) = (d - min d n, c + min d n) := by
  induction n with
  | zero => intro d c; simp [runTicks]
  | succ m ih =>
      intro d c
      cases d with
      | zero => simp [runTicks, tick, ih]
      | succ k =>
          simp only [runTicks, tick]
          simp only [ne_eq, Nat.succ_ne_zero, not_false_eq_true, if_pos]
          rw [ih]
          have h1 : k + 1 - 1 - (k + 1 - 1) ⊓ m = k + 1 - (k + 1) ⊓ (m + 1) := by omega
          have h2 : c + 1 + (k + 1 - 1) ⊓ m = c + (k + 1) ⊓ (m + 1) := by omega
          rw [h1, h2]

theorem dwellWait_complete (bursts : List Nat) :
    ∀ d c, d ≤ bursts.sum → dwellWait bursts (d, c) = some (0, c + d) := by
  induction bursts with
  | nil =>
      intro d c h
      simp at h
      subst h
      simp [dwellWait]
  | cons n rest ih =>
      intro d c h
      by_cases hd : d = 0
      · subst hd; simp [dwellWait]
      · simp only [dwellWait, hd, if_false, runTicks_eq]
        have hle : d - min d n ≤ rest.sum := by
          simp only [List.sum_cons] at h
          omega
        rw [ih _ _ hle]
        have : c + min d n + (d - min d n) = c + d := by omega
        rw [this]

/-- Claim C6: for a requested dwell of d milliseconds and any clock trace
observing at least d whole-millisecond ticks in total, the busy wait
returns with the remaining count 0 after performing exactly d decrements,
and each observed tick decrements the positive remaining count exactly
once and a zero remaining count not at all (so the count never goes
negative). -/
theorem c6_dwell_accounting (d : Nat) (bursts : List Nat) (h : d ≤ bursts.sum) :
    dwellWait bursts (d, 0) = some (0, d) ∧
      (∀ r c, tick (r, c) = if r = 0 then (r, c) else (r - 1, c + 1)) := by
  constructor
  · have := dwellWait_complete bursts d 0 h
    simpa using this
  · intro r c
    cases r <;> simp [tick]

/-- Witness for c6_dwell_accounting: a 3 ms dwell over a clock trace of
two bursts of 2 ticks each. -/
theorem c6_dwell_accounting_witness :
    dwellWait [2, 2] (3, 0) = some (0, 3) ∧
      (∀ r c, tick (r, c) = if r = 0 then (r, c) else (r - 1, c + 1)) :=
  c6_dwell_accounting 3 [2, 2] (by decide)

/-- Claim C4: in a run of one or more loop() iterations, the first
iteration contributes exactly its switch-pass events (which contain all
of its input samples and output writes and no dwell), then the dwell,
then the forced solenoid-off write, and only after that write do the
events of the following iterations (with the next input samples) occur;
moreover the last solenoid write of the iteration is LOW, so the
actuator is never left energized across an iteration boundary. -/
theorem c4_forced_off_after_dwell (s : Nat) (i : Inputs) (l : List Inputs) :
    (∃ pre rest,
      (run s (i :: l)).2 =
        pre ++ Ev.dwell (step s i).delayMs :: Ev.writePin SOLENOID_EN false :: rest ∧
      pre = (step s i).events ∧
      (∀ e ∈ pre, isDwell e = false) ∧
      rest = (run (step s i).state l).2) ∧
    (writesTo SOLENOID_EN (loopIter s i).2).getLast? = some false := by
  constructor
  · refine ⟨(step s i).events, (run (step s i).state l).2, ?_, rfl, step_no_dwell s i, rfl⟩
    simp [run, loopIter]
  · have h2 : writesTo SOLENOID_EN (loopIter s i).2
        = writesTo SOLENOID_EN (step s i).events ++ [false] := by
      simp [loopIter, writesTo_append, writesTo]
    rw [h2, step_solenoid_writes]
    simp

/-- Claim C8 counterexample: the step that leaves S_WAIT_FOR_OPEN on an
asserted open button (disable idle HIGH, open pressed LOW) does move to
S_OPEN, but it writes the solenoid LOW and selects the 20 ms debounce
dwell, not solenoid HIGH with a 500 ms dwell as the claim states. -/
theorem c8_cycle_counterexample :
    (step S_WAIT_FOR_OPEN ⟨true, false⟩).state = S_OPEN ∧
      ¬ (writesTo SOLENOID_EN (step S_WAIT_FOR_OPEN ⟨true, false⟩).events = [true] ∧
          (step S_WAIT_FOR_OPEN ⟨true, false⟩).delayMs = 500) := by
  decide

/-- Claim C8 as amended: the state sequence of the cycle is as claimed,
but each transition carries the outputs of the state being left: the step
into S_OPEN still writes the solenoid LOW with the 20 ms debounce dwell;
the step out of S_OPEN (for any inputs) goes to S_CLOSE with the solenoid
HIGH and the 500 ms dwell; the step out of S_CLOSE (for any inputs) goes
to S_WAIT_FOR_ENABLE with the solenoid LOW and the 5000 ms dwell. -/
theorem c8_cycle_amended :
    (step S_WAIT_FOR_ENABLE ⟨true, true⟩).state = S_WAIT_FOR_OPEN ∧
      (step S_WAIT_FOR_OPEN ⟨true, true⟩).state = S_WAIT_FOR_OPEN ∧
      ((step S_WAIT_FOR_OPEN ⟨true, false⟩).state = S_OPEN ∧
        writesTo SOLENOID_EN (step S_WAIT_FOR_OPEN ⟨true, false⟩).events = [false] ∧
        (step S_WAIT_FOR_OPEN ⟨true, false⟩).delayMs = DEBOUNCE_MS) ∧
      (∀ i : Inputs, (step S_OPEN i).state = S_CLOSE ∧
        writesTo SOLENOID_EN (step S_OPEN i).events = [true] ∧
        (step S_OPEN i).delayMs = SOLENOID_TIME_ON_MS) ∧
      (∀ i : Inputs, (step S_CLOSE i).state = S_WAIT_FOR_ENABLE ∧
        writesTo SOLENOID_EN (step S_CLOSE i).events = [false] ∧
        (step S_CLOSE i).delayMs = SOLENOID_TIME_OFF_MS) := by
  refine ⟨by decide, by decide, by decide, ?_, ?_⟩ <;>
    · rintro ⟨d, o⟩
      cases d <;> cases o <;> decide

/-- Claim C9: for every input combination, the step from S_OPEN goes
unconditionally to S_CLOSE and the step from S_CLOSE goes unconditionally
to S_WAIT_FOR_ENABLE, and neither branch performs any input sample. -/
theorem c9_open_close_unconditional (i : Inputs) :
    (step S_OPEN i).state = S_CLOSE ∧
      (step S_CLOSE i).state = S_WAIT_FOR_ENABLE ∧
      (∀ e ∈ (step S_OPEN i).events, isRead e = false) ∧
      (∀ e ∈ (step S_CLOSE i).events, isRead e = false) := by
  obtain ⟨d, o⟩ := i
  cases d <;> cases o <;> decide

theorem stateAfter_cases (l : List Inputs) :
    ∀ s, (s = S_WAIT_FOR_ENABLE ∨ s = S_WAIT_FOR_OPEN ∨ s = S_OPEN ∨ s = S_CLOSE) →
      (stateAfter s l = S_WAIT_FOR_ENABLE ∨ stateAfter s l = S_WAIT_FOR_OPEN ∨
        stateAfter s l = S_OPEN ∨ stateAfter s l = S_CLOSE) := by
  induction l with
  | nil => intro s h; simpa [stateAfter] using h
  | cons i rest ih =>
      intro s _
      have hstep : stateAfter s (i :: rest) = stateAfter (step s i).state rest := rfl
      rw [hstep]
      exact ih _ (step_state_cases s i)

/-- Claim C10: starting from the initial state S_WAIT_FOR_ENABLE, after
any sequence of steps the state variable is one of the four defined
values, so the default branch is never reached in a reachable execution;
and the S_CLOSE branch writes only the solenoid line, so replaying an
S_OPEN iteration leaves the disable LED HIGH and replaying an S_CLOSE
iteration (its final forced solenoid-off write included) leaves the
disable LED at whatever level it already had: the LED stays lit through
the whole cool-down dwell. -/
theorem c10_reachable_and_close_indicator
    (l : List Inputs) (i j : Inputs) (p q : Nat → Bool) :
    (stateAfter S_WAIT_FOR_ENABLE l = S_WAIT_FOR_ENABLE ∨
      stateAfter S_WAIT_FOR_ENABLE l = S_WAIT_FOR_OPEN ∨
      stateAfter S_WAIT_FOR_ENABLE l = S_OPEN ∨
      stateAfter S_WAIT_FOR_ENABLE l = S_CLOSE) ∧
      writesTo LED_DISABLE (step S_CLOSE i).events = [] ∧
      (∀ e ∈ (step S_CLOSE i).events, writeTarget e = some SOLENOID_EN) ∧
      applyTrace (loopIter S_OPEN i).2 p LED_DISABLE = true ∧
      applyTrace (loopIter S_CLOSE j).2 q LED_DISABLE = q LED_DISABLE := by
  obtain ⟨d, o⟩ := i
  refine ⟨stateAfter_cases l _ (Or.inl rfl), ?_, ?_, ?_, ?_⟩
  · cases d <;> cases o <;> decide
  · cases d <;> cases o <;> decide
  · simp [loopIter, step, applyTrace, applyEv, LED_DISABLE, SOLENOID_EN,
      S_OPEN, S_CLOSE, S_WAIT_FOR_ENABLE, S_WAIT_FOR_OPEN]
  · simp [loopIter, step, applyTrace, applyEv, LED_DISABLE, SOLENOID_EN,
      S_OPEN, S_CLOSE, S_WAIT_FOR_ENABLE, S_WAIT_FOR_OPEN]
